import Mathlib

/-!
Verification of the transporte-opina feedback API (Node/Express/MySQL) against
its specification.  The JavaScript source is shallowly embedded: JS runtime
values that the validation code can observe are modelled by `JSVal`
(with `NaN` as a distinguished number), request bodies parsed from JSON by
`Payload` (association lists of string keys), the controller handlers in
`src/controllers/feedbackController.js` and the repository functions in
`src/models/feedbackModel.js` as Lean functions.  SQL statements are modelled
as the pair of the statement text and the parameter list handed to
`db.query`; thrown JS `Error` objects carrying an optional `status` are
modelled by `JsError`, and the generic error middleware of `app.js` by
`errorMiddleware`.
-/

/-- Numbers as the validation code can distinguish them: `NaN` versus ordinary
(integral) numbers.  The controller never does arithmetic on ratings, so an
`Int` payload is enough. -/
inductive JsNum
  | nan
  | int (i : Int)
deriving DecidableEq

/-- JS runtime values observable by the validation code: strings, numbers,
booleans, `null` and `undefined`. -/
inductive JSVal
  | vStr (s : String)
  | vNum (n : JsNum)
  | vBool (b : Bool)
  | vNull
  | vUndefined
deriving DecidableEq

/-- A parsed JSON request body: an object with string keys in insertion
order. -/
abbrev Payload := List (String × JSVal)

/-- JS property access `o.k` / `o[k]`: the stored value, or `undefined` when
the key is absent. -/
def getField (o : Payload) (k : String) : JSVal :=
  (o.lookup k).getD JSVal.vUndefined

/-- JS truthiness: `undefined`, `null`, `false`, `0`, `NaN` and `""` are
falsy, everything else truthy. -/
def truthy : JSVal → Bool
  | JSVal.vStr s => !(s == "")
  | JSVal.vNum JsNum.nan => false
  | JSVal.vNum (JsNum.int i) => !(i == 0)
  | JSVal.vBool b => b
  | JSVal.vNull => false
  | JSVal.vUndefined => false

/-- JS `typeof` on the modelled values (`typeof null` is `"object"`). -/
def typeofJS : JSVal → String
  | JSVal.vStr _ => "string"
  | JSVal.vNum _ => "number"
  | JSVal.vBool _ => "boolean"
  | JSVal.vNull => "object"
  | JSVal.vUndefined => "undefined"

/-- JS `String.prototype.trim()`: strip leading and trailing whitespace. -/
def jsTrim (s : String) : String :=
  String.mk (((s.data.dropWhile Char.isWhitespace).reverse.dropWhile
    Char.isWhitespace).reverse)

/-- The rejection test for `bus_number` and `bus_line` in
`criarNovoFeedback`:
`!v, typeof v !== "string", v.trim() === ""` (disjunction of the three).
The `match` arm for non-strings is unreachable after the `typeof` test, as in
the short-circuiting JS original. -/
def busFieldInvalid (v : JSVal) : Bool :=
  !truthy v || !(typeofJS v == "string") ||
    (match v with
     | JSVal.vStr s => jsTrim s == ""
     | _ => true)

/-- The rejection test applied to `overall_rating` and `safety_rating`:
`v === undefined, typeof v !== "number"` (disjunction of the two). -/
def ratingInvalid (v : JSVal) : Bool :=
  v == JSVal.vUndefined || !(typeofJS v == "number")

/-- Error message for an invalid `bus_number` (controller). -/
def msgBusNumber : String :=
  "O campo \"bus_number\" (Número do ônibus) é obrigatório e deve ser um texto não vazio."

/-- Error message for an invalid `bus_line` (controller). -/
def msgBusLine : String :=
  "O campo \"bus_line\" (Linha do ônibus) é obrigatório e deve ser um texto não vazio."

/-- Error message for a missing or non-numeric rating field (controller). -/
def msgRating (field : String) : String :=
  "O campo \"" ++ field ++ "\" é obrigatório e deve ser um número."

/-- Outcome of the create handler up to the storage boundary: either a 400
validation error thrown before any storage call, or the call
`Feedback.criarFeedback(feedbackData)` with the full request body. -/
inductive CreateOutcome
  | badRequest (status : Nat) (message : String)
  | insert (payload : Payload)
deriving DecidableEq

/-- The validation phase of `criarNovoFeedback`
(`src/controllers/feedbackController.js`): `bus_number`, then `bus_line`,
then the loop over the two rating field names, first failure
thrown with status 400; a body passing all four checks is passed to
`Feedback.criarFeedback`. -/
def criarNovoFeedback (body : Payload) : CreateOutcome :=
  if busFieldInvalid (getField body "bus_number") then
    CreateOutcome.badRequest 400 msgBusNumber
  else if busFieldInvalid (getField body "bus_line") then
    CreateOutcome.badRequest 400 msgBusLine
  else if ratingInvalid (getField body "overall_rating") then
    CreateOutcome.badRequest 400 (msgRating "overall_rating")
  else if ratingInvalid (getField body "safety_rating") then
    CreateOutcome.badRequest 400 (msgRating "safety_rating")
  else
    CreateOutcome.insert body

/-- The fifteen column names destructured from the payload by
`Feedback.criarFeedback` (`src/models/feedbackModel.js`), in source order. -/
def knownColumns : List String :=
  ["bus_number", "bus_line", "excessive_delay", "bus_overcrowded",
   "lack_of_accessibility", "air_conditioning_broken", "driver_misconduct",
   "route_change", "vehicle_poor_condition", "comment", "boarding_point",
   "occurrence_location", "overall_rating", "safety_rating",
   "improvement_suggestions"]

/-- The fixed INSERT template of `criarFeedback`, with the source
whitespace collapsed to single spaces. -/
def insertSql : String :=
  "INSERT INTO feedback_users ( bus_number, bus_line, excessive_delay, bus_overcrowded, lack_of_accessibility, air_conditioning_broken, driver_misconduct, route_change, vehicle_poor_condition, comment, boarding_point, occurrence_location, overall_rating, safety_rating, improvement_suggestions ) VALUES (?, ?, ?, ?, ?, ?, ?, ?, ?, ?, ?, ?, ?, ?, ?)"

/-- The SQL statement and parameter list `criarFeedback` hands to
`db.query`: the template is constant and the values are the destructured
fifteen known fields of the payload, in column order. -/
def criarFeedbackStmt (newFeedbackData : Payload) : String × List JSVal :=
  (insertSql, knownColumns.map (getField newFeedbackData))

/-- A thrown JS `Error`: its `message` plus the optional `status` property
hung on it by the controllers (`undefined` when absent, as in the re-wrapped
model errors). -/
structure JsError where
  message : String
  status : Option Nat
deriving DecidableEq

/-- The catch block of `criarFeedback`: a driver failure with message
`driverMessage` is re-thrown as
`new Error("Erro ao salvar feedback no banco de dados: " + driverMessage)`,
with no `status` property. -/
def criarFeedbackWrapError (driverMessage : String) : JsError :=
  ⟨"Erro ao salvar feedback no banco de dados: " ++ driverMessage, none⟩

/-- The generic error middleware of `app.js`: responds with status
`err.status || 500` and body message `err.message || default` (JS `||`, so a
present-but-zero status and an empty message fall back to the defaults). -/
def errorMiddleware (err : JsError) : Nat × String :=
  ((match err.status with
    | some s => if s = 0 then 500 else s
    | none => 500),
   if err.message = "" then "Ocorreu um erro interno no servidor." else err.message)

/-- Longest leading run of decimal digits, `none` when there is none. -/
def parseDecDigits (cs : List Char) : Option Nat :=
  let ds := cs.takeWhile Char.isDigit
  if ds.isEmpty then none
  else some (ds.foldl (fun a c => a * 10 + (c.toNat - 48)) 0)

/-- JS `parseInt(s, 10)` as used on `req.params.id`: skip leading whitespace,
optional sign, then the longest prefix of decimal digits; `none` models
`NaN`. -/
def jsParseInt (s : String) : Option Int :=
  match s.toList.dropWhile Char.isWhitespace with
  | '-' :: rest => (parseDecDigits rest).map (fun n => -(n : Int))
  | '+' :: rest => (parseDecDigits rest).map (fun n => (n : Int))
  | cs => (parseDecDigits cs).map (fun n => (n : Int))

/-- The id guard of the controllers, `!(isNaN(id) || id <= 0)`, phrased as
acceptance of the parse result. -/
def idValid : Option Int → Bool
  | none => false
  | some n => decide (0 < n)

/-- One row of `feedback_users` as the repository sees it: primary key,
submission timestamp, and the remaining columns. -/
structure FeedbackRecord where
  id_feedback : Int
  submission_datetime : Int
  columns : List (String × JSVal)
deriving DecidableEq

/-- An HTTP JSON response: status, `message` field (empty when the handler
serialises a bare record, as GET-by-id does on success) and the optional
`feedback` record. -/
structure HttpResponse where
  status : Nat
  message : String
  feedback : Option FeedbackRecord
deriving DecidableEq

/-- A call a handler makes into the repository (`feedbackModel`). -/
inductive RepoCall
  | getById (id : Int)
  | update (id : Int) (fields : Payload)
  | delete (id : Int)
deriving DecidableEq

/-- A handler run: the final HTTP response (a thrown error is shown as the
response the `app.js` middleware produces for it) plus the repository calls
made, in order. -/
structure HandlerRun where
  response : HttpResponse
  repoCalls : List RepoCall
deriving DecidableEq

/-- `obterFeedbackPorId` (GET by id): `parseInt` the path id, throw 400 when
`isNaN(id) || id <= 0` before any repository call; otherwise fetch, answering
200 with the record or 404. -/
def obterFeedbackPorId (repoGet : Int → Option FeedbackRecord)
    (idStr : String) : HandlerRun :=
  match jsParseInt idStr with
  | none =>
    ⟨⟨400, "O ID fornecido na URL é inválido. Deve ser um número inteiro positivo.", none⟩, []⟩
  | some n =>
    if n ≤ 0 then
      ⟨⟨400, "O ID fornecido na URL é inválido. Deve ser um número inteiro positivo.", none⟩, []⟩
    else
      match repoGet n with
      | some r => ⟨⟨200, "", some r⟩, [RepoCall.getById n]⟩
      | none =>
        ⟨⟨404, "Feedback com ID " ++ toString n ++ " não encontrado.", none⟩,
          [RepoCall.getById n]⟩

/-- `deletarUmFeedback` (DELETE): same id guard, then delete; 200 when a row
was removed, 404 when the count is 0. -/
def deletarUmFeedback (repoDelete : Int → Nat) (idStr : String) : HandlerRun :=
  match jsParseInt idStr with
  | none => ⟨⟨400, "O ID fornecido na URL para deleção é inválido.", none⟩, []⟩
  | some n =>
    if n ≤ 0 then
      ⟨⟨400, "O ID fornecido na URL para deleção é inválido.", none⟩, []⟩
    else
      if repoDelete n > 0 then
        ⟨⟨200, "Feedback com ID " ++ toString n ++ " deletado com sucesso.", none⟩,
          [RepoCall.delete n]⟩
      else
        ⟨⟨404, "Feedback com ID " ++ toString n ++ " não encontrado para deleção.", none⟩,
          [RepoCall.delete n]⟩

/-- `atualizarUmFeedback` (PUT): id guard, then the emptiness check on the
body, then `Feedback.atualizarFeedback`; on a positive affected-row count a
200 carrying the re-fetched record, otherwise 404 when the id does not exist
and a 200 "no change" answer with the existing record when it does. -/
def atualizarUmFeedback (repoUpdate : Int → Payload → Nat)
    (repoGet : Int → Option FeedbackRecord) (idStr : String)
    (body : Payload) : HandlerRun :=
  match jsParseInt idStr with
  | none => ⟨⟨400, "O ID fornecido na URL para atualização é inválido.", none⟩, []⟩
  | some n =>
    if n ≤ 0 then
      ⟨⟨400, "O ID fornecido na URL para atualização é inválido.", none⟩, []⟩
    else if body.length = 0 then
      ⟨⟨400, "Nenhum dado foi fornecido no corpo da requisição para atualização.", none⟩, []⟩
    else
      if repoUpdate n body > 0 then
        ⟨⟨200, "Feedback com ID " ++ toString n ++ " atualizado com sucesso.", repoGet n⟩,
          [RepoCall.update n body, RepoCall.getById n]⟩
      else
        match repoGet n with
        | none =>
          ⟨⟨404, "Feedback com ID " ++ toString n ++ " não encontrado para atualização.", none⟩,
            [RepoCall.update n body, RepoCall.getById n]⟩
        | some r =>
          ⟨⟨200, "Nenhuma alteração aplicada ao feedback com ID " ++ toString n ++ ". Os dados podem ser os mesmos já existentes.", some r⟩,
            [RepoCall.update n body, RepoCall.getById n]⟩

/-- `Array.prototype.join` with separator comma-space over the mapped set-clause pieces. -/
def joinComma : List String → String
  | [] => ""
  | [x] => x
  | x :: xs => x ++ ", " ++ joinComma xs

/-- The dynamic UPDATE of `Feedback.atualizarFeedback`: `none` models the
early `return 0` for an empty field object (no `db.query` call at all);
otherwise the statement text — each caller-supplied key interpolated into it
wrapped in backticks — paired with the parameter list (the field values,
then the id). -/
def atualizarFeedbackPlan (id : Int) (feedbackData : Payload) :
    Option (String × List JSVal) :=
  let fieldsToUpdate := feedbackData.map Prod.fst
  if fieldsToUpdate.length = 0 then none
  else
    let setClause :=
      joinComma (fieldsToUpdate.map (fun field => "`" ++ field ++ "` = ?"))
    let values :=
      fieldsToUpdate.map (getField feedbackData) ++ [JSVal.vNum (JsNum.int id)]
    some ("UPDATE feedback_users SET " ++ setClause ++ " WHERE id_feedback = ?", values)

/-- `Feedback.atualizarFeedback` run against an abstract store `dbQuery`:
pairs the returned affected-row count with the list of SQL statements
actually issued (empty for the empty-fields early return). -/
def atualizarFeedback (dbQuery : String → List JSVal → Nat) (id : Int)
    (feedbackData : Payload) : Nat × List (String × List JSVal) :=
  match atualizarFeedbackPlan id feedbackData with
  | none => (0, [])
  | some stmt => (dbQuery stmt.1 stmt.2, [stmt])

/-- `Feedback.buscarFeedbackPorId`:
`SELECT * FROM feedback_users WHERE id_feedback = ?` over the table modelled
as a row list, followed by the ternary `rows.length > 0 ? rows[0] : null` of the source. -/
def buscarFeedbackPorId (tbl : List FeedbackRecord) (id : Int) :
    Option FeedbackRecord :=
  let rows := tbl.filter (fun r => r.id_feedback == id)
  if rows.length > 0 then rows[0]? else none

/-- `Feedback.listarFeedbacks`:
`SELECT * FROM feedback_users ORDER BY submission_datetime DESC` — all rows
of the table, sorted by submission timestamp descending. -/
def listarFeedbacks (tbl : List FeedbackRecord) : List FeedbackRecord :=
  tbl.mergeSort (fun a b => decide (b.submission_datetime ≤ a.submission_datetime))

/-! Helper lemmas shared by several claims. -/

theorem busFieldInvalid_vStr (s : String) :
    busFieldInvalid (JSVal.vStr s) = (jsTrim s == "") := by
  by_cases h : s = ""
  · subst h; rfl
  · simp [busFieldInvalid, truthy, typeofJS, h]

theorem joinComma_mem_split :
    ∀ (xs : List String) (x : String), x ∈ xs →
      ∃ pre post, joinComma xs = pre ++ x ++ post
  | [], x, hx => absurd hx (List.not_mem_nil x)
  | [y], x, hx => by
    rcases List.mem_singleton.mp hx with rfl
    exact ⟨"", "", by simp [joinComma]⟩
  | y :: z :: zs, x, hx => by
    rcases List.mem_cons.mp hx with rfl | hmem
    · exact ⟨"", ", " ++ joinComma (z :: zs), by simp [joinComma, String.append_assoc]⟩
    · rcases joinComma_mem_split (z :: zs) x hmem with ⟨pre, post, heq⟩
      exact ⟨y ++ ", " ++ pre, post, by
        simp [joinComma, heq, String.append_assoc]⟩

/-- C4: create-payload validation runs in the order `bus_number`,
`bus_line`, `overall_rating`, `safety_rating` with the first failure winning
as a 400 thrown before any storage call; the invalid set for the text fields
is exactly missing / non-string / empty-or-whitespace-only, for the ratings
exactly missing / non-number; a payload passing all four checks is handed to
the repository insert. -/
theorem c4_create_validation_order (body : Payload) :
    (busFieldInvalid (getField body "bus_number") = true →
      criarNovoFeedback body = CreateOutcome.badRequest 400 msgBusNumber) ∧
    (busFieldInvalid (getField body "bus_number") = false →
      busFieldInvalid (getField body "bus_line") = true →
      criarNovoFeedback body = CreateOutcome.badRequest 400 msgBusLine) ∧
    (busFieldInvalid (getField body "bus_number") = false →
      busFieldInvalid (getField body "bus_line") = false →
      ratingInvalid (getField body "overall_rating") = true →
      criarNovoFeedback body = CreateOutcome.badRequest 400 (msgRating "overall_rating")) ∧
    (busFieldInvalid (getField body "bus_number") = false →
      busFieldInvalid (getField body "bus_line") = false →
      ratingInvalid (getField body "overall_rating") = false →
      ratingInvalid (getField body "safety_rating") = true →
      criarNovoFeedback body = CreateOutcome.badRequest 400 (msgRating "safety_rating")) ∧
    (busFieldInvalid (getField body "bus_number") = false →
      busFieldInvalid (getField body "bus_line") = false →
      ratingInvalid (getField body "overall_rating") = false →
      ratingInvalid (getField body "safety_rating") = false →
      criarNovoFeedback body = CreateOutcome.insert body) ∧
    (∀ v, busFieldInvalid v = true ↔
      v = JSVal.vUndefined ∨ typeofJS v ≠ "string" ∨
        ∃ s, v = JSVal.vStr s ∧ jsTrim s = "") ∧
    (∀ v, ratingInvalid v = true ↔ v = JSVal.vUndefined ∨ typeofJS v ≠ "number") ∧
    (∀ s m p, criarNovoFeedback body = CreateOutcome.badRequest s m →
      criarNovoFeedback body ≠ CreateOutcome.insert p) := by
  refine ⟨?_, ?_, ?_, ?_, ?_, ?_, ?_, ?_⟩
  · intro h1; simp [criarNovoFeedback, h1]
  · intro h1 h2; simp [criarNovoFeedback, h1, h2]
  · intro h1 h2 h3; simp [criarNovoFeedback, h1, h2, h3]
  · intro h1 h2 h3 h4; simp [criarNovoFeedback, h1, h2, h3, h4]
  · intro h1 h2 h3 h4; simp [criarNovoFeedback, h1, h2, h3, h4]
  · intro v
    cases v with
    | vStr s =>
      rw [busFieldInvalid_vStr]
      simp [typeofJS]
    | vNum n => simp [busFieldInvalid, typeofJS, truthy]
    | vBool b => cases b <;> simp [busFieldInvalid, typeofJS, truthy]
    | vNull => simp [busFieldInvalid, typeofJS, truthy]
    | vUndefined => simp [busFieldInvalid, typeofJS, truthy]
  · intro v
    cases v <;> simp [ratingInvalid, typeofJS]
  · intro s m p h1 h2
    rw [h1] at h2
    exact CreateOutcome.noConfusion h2

theorem c4_create_validation_order_witness :
    criarNovoFeedback [("bus_number", JSVal.vNum (JsNum.int 7))]
      = CreateOutcome.badRequest 400 msgBusNumber :=
  (c4_create_validation_order [("bus_number", JSVal.vNum (JsNum.int 7))]).1 (by decide)

/-- C9: a payload whose `overall_rating` is `NaN` passes the create handler
validation (the check only tests definedness and `typeof` being number) and
reaches the repository insert. -/
theorem c9_nan_rating_passes_validation :
    ∃ body : Payload,
      getField body "overall_rating" = JSVal.vNum JsNum.nan ∧
      typeofJS (JSVal.vNum JsNum.nan) = "number" ∧
      criarNovoFeedback body = CreateOutcome.insert body :=
  ⟨[("bus_number", JSVal.vStr "A12"), ("bus_line", JSVal.vStr "101"),
    ("overall_rating", JSVal.vNum JsNum.nan),
    ("safety_rating", JSVal.vNum (JsNum.int 5))],
   by decide, by decide, by decide⟩

/-- C10: two create payloads agreeing on the fifteen known columns produce
the identical SQL statement and parameter list — unknown extra keys never
influence the insert. -/
theorem c10_unknown_keys_ignored (p1 p2 : Payload)
    (h : ∀ k ∈ knownColumns, getField p1 k = getField p2 k) :
    criarFeedbackStmt p1 = criarFeedbackStmt p2 := by
  unfold criarFeedbackStmt
  exact congrArg (Prod.mk insertSql) (List.map_congr_left h)

theorem c10_unknown_keys_ignored_witness :
    criarFeedbackStmt
        [("bus_number", JSVal.vStr "A"), ("junk_key", JSVal.vBool true)]
      = criarFeedbackStmt
        [("bus_number", JSVal.vStr "A"), ("other_junk", JSVal.vNull)] :=
  c10_unknown_keys_ignored
    [("bus_number", JSVal.vStr "A"), ("junk_key", JSVal.vBool true)]
    [("bus_number", JSVal.vStr "A"), ("other_junk", JSVal.vNull)]
    (by decide)

/-- C1 (divergence, at a concrete driver failure): when `criarFeedback` hits
a driver error, the re-wrapped error has no status so the middleware answers
500 — but the body message forwarded to the client is the generic prefix with
the driver diagnostic text appended, so the diagnostic does reach the
client. -/
theorem c1_driver_diagnostic_reaches_client :
    (errorMiddleware (criarFeedbackWrapError
        "ER_BAD_FIELD_ERROR: Unknown column x in field list")).1 = 500 ∧
    ∃ pre, (errorMiddleware (criarFeedbackWrapError
        "ER_BAD_FIELD_ERROR: Unknown column x in field list")).2
      = pre ++ "ER_BAD_FIELD_ERROR: Unknown column x in field list" :=
  ⟨rfl, "Erro ao salvar feedback no banco de dados: ", rfl⟩

/-- C6: the repository update with an empty partial-fields object returns 0
affected rows, issues no SQL statement at all (for any store), and hence —
whatever the store-side effect of a statement would be — leaves the table
unchanged. -/
theorem c6_empty_update_is_noop (dbQuery : String → List JSVal → Nat)
    (id : Int)
    (exec : List FeedbackRecord → String × List JSVal → List FeedbackRecord)
    (tbl : List FeedbackRecord) :
    atualizarFeedback dbQuery id [] = (0, []) ∧
    List.foldl exec tbl (atualizarFeedback dbQuery id [] ).2 = tbl :=
  ⟨rfl, rfl⟩

/-- C2 (counterexample): a caller-supplied field name that is not in the
known column set — here one containing a backtick, closing the quoting — is
interpolated verbatim into the UPDATE statement text: no validation against
the allowed set happens. -/
theorem c2_field_names_not_validated_counterexample :
    atualizarFeedbackPlan 1 [("bus_number` = NULL, `comment", JSVal.vNull)]
      = some ("UPDATE feedback_users SET `bus_number` = NULL, `comment` = ? WHERE id_feedback = ?",
              [JSVal.vNull, JSVal.vNum (JsNum.int 1)]) ∧
    "bus_number` = NULL, `comment" ∉ knownColumns :=
  ⟨rfl, by decide⟩

/-- C2 (amended): in the update operation, every field name taken from the
caller-provided object — validated against nothing — is interpolated,
wrapped in backticks, into the SQL UPDATE statement text. -/
theorem c2_amended_every_key_interpolated (id : Int) (feedbackData : Payload)
    (k : String) (hk : k ∈ feedbackData.map Prod.fst) :
    ∃ sqlText values pre post,
      atualizarFeedbackPlan id feedbackData = some (sqlText, values) ∧
      sqlText = pre ++ ("`" ++ k ++ "` = ?") ++ post := by
  have hlen : ¬ (feedbackData.map Prod.fst).length = 0 := by
    intro h
    rw [List.length_eq_zero] at h
    rw [h] at hk
    exact (List.not_mem_nil k) hk
  rcases joinComma_mem_split
      ((feedbackData.map Prod.fst).map (fun field => "`" ++ field ++ "` = ?"))
      ("`" ++ k ++ "` = ?") (List.mem_map_of_mem _ hk) with ⟨pre, post, hsplit⟩
  refine ⟨"UPDATE feedback_users SET "
      ++ joinComma ((feedbackData.map Prod.fst).map
            (fun field => "`" ++ field ++ "` = ?"))
      ++ " WHERE id_feedback = ?",
    (feedbackData.map Prod.fst).map (getField feedbackData)
      ++ [JSVal.vNum (JsNum.int id)],
    "UPDATE feedback_users SET " ++ pre, post ++ " WHERE id_feedback = ?",
    ?_, ?_⟩
  · unfold atualizarFeedbackPlan
    rw [if_neg hlen]
  · rw [hsplit]
    simp [String.append_assoc]

theorem c2_amended_every_key_interpolated_witness :
    ∃ sqlText values pre post,
      atualizarFeedbackPlan 3 [("comment", JSVal.vStr "noisy")]
        = some (sqlText, values) ∧
      sqlText = pre ++ ("`" ++ "comment" ++ "` = ?") ++ post :=
  c2_amended_every_key_interpolated 3 [("comment", JSVal.vStr "noisy")]
    "comment" (by decide)

/-- C3: for an update request whose id parses as a positive integer and
whose body is non-empty, a positive affected-row count yields 200 with the
re-fetched record; 0 affected rows with the record still present yields 200
with the existing record and the "no change" message; 0 affected rows with
no such record yields 404. -/
theorem c3_update_status_mapping (repoUpdate : Int → Payload → Nat)
    (repoGet : Int → Option FeedbackRecord) (idStr : String) (body : Payload)
    (n : Int) (hparse : jsParseInt idStr = some n) (hpos : 0 < n)
    (hbody : body ≠ []) :
    (0 < repoUpdate n body →
      (atualizarUmFeedback repoUpdate repoGet idStr body).response
        = ⟨200, "Feedback com ID " ++ toString n ++ " atualizado com sucesso.",
            repoGet n⟩) ∧
    (repoUpdate n body = 0 → ∀ r, repoGet n = some r →
      (atualizarUmFeedback repoUpdate repoGet idStr body).response
        = ⟨200, "Nenhuma alteração aplicada ao feedback com ID " ++ toString n ++ ". Os dados podem ser os mesmos já existentes.",
            some r⟩) ∧
    (repoUpdate n body = 0 → repoGet n = none →
      (atualizarUmFeedback repoUpdate repoGet idStr body).response
        = ⟨404, "Feedback com ID " ++ toString n ++ " não encontrado para atualização.",
            none⟩) := by
  have hn : ¬ n ≤ 0 := not_le.mpr hpos
  have hlen : ¬ body.length = 0 := fun h => hbody (List.length_eq_zero.mp h)
  refine ⟨?_, ?_, ?_⟩
  · intro h
    simp [atualizarUmFeedback, hparse, hn, hlen, h]
  · intro h r hr
    simp [atualizarUmFeedback, hparse, hn, hlen, h, hr]
  · intro h hr
    simp [atualizarUmFeedback, hparse, hn, hlen, h, hr]

theorem c3_update_status_mapping_witness :
    (atualizarUmFeedback (fun _ _ => 1) (fun _ => none) "7"
        [("comment", JSVal.vNull)]).response
      = ⟨200, "Feedback com ID " ++ toString (7 : Int) ++ " atualizado com sucesso.",
          none⟩ :=
  (c3_update_status_mapping (fun _ _ => 1) (fun _ => none) "7"
    [("comment", JSVal.vNull)] 7 (by decide) (by decide) (by decide)).1
    (by decide)

/-- C5: for get-by-id, update and delete, the path id is accepted exactly
when `parseInt(id, 10)` yields a positive value; a rejected id (NaN, zero or
negative parse) answers 400 with no repository call, an accepted id reaches
the repository with the parsed value. -/
theorem c5_id_guard_all_handlers (repoGet : Int → Option FeedbackRecord)
    (repoDelete : Int → Nat) (repoUpdate : Int → Payload → Nat)
    (body : Payload) (idStr : String) :
    (idValid (jsParseInt idStr) = false →
      (obterFeedbackPorId repoGet idStr).response.status = 400 ∧
      (obterFeedbackPorId repoGet idStr).repoCalls = [] ∧
      (deletarUmFeedback repoDelete idStr).response.status = 400 ∧
      (deletarUmFeedback repoDelete idStr).repoCalls = [] ∧
      (atualizarUmFeedback repoUpdate repoGet idStr body).response.status = 400 ∧
      (atualizarUmFeedback repoUpdate repoGet idStr body).repoCalls = []) ∧
    (∀ n, jsParseInt idStr = some n → 0 < n →
      (obterFeedbackPorId repoGet idStr).repoCalls = [RepoCall.getById n] ∧
      (deletarUmFeedback repoDelete idStr).repoCalls = [RepoCall.delete n] ∧
      (body ≠ [] →
        (atualizarUmFeedback repoUpdate repoGet idStr body).repoCalls
          = [RepoCall.update n body, RepoCall.getById n])) ∧
    (idValid (jsParseInt idStr) = true ↔
      ∃ n, jsParseInt idStr = some n ∧ 0 < n) := by
  refine ⟨?_, ?_, ?_⟩
  · intro hinv
    cases hp : jsParseInt idStr with
    | none =>
      simp [obterFeedbackPorId, deletarUmFeedback, atualizarUmFeedback, hp]
    | some n =>
      have hn : n ≤ 0 := by
        rw [hp] at hinv
        simp [idValid] at hinv
        exact hinv
      simp [obterFeedbackPorId, deletarUmFeedback, atualizarUmFeedback, hp, hn]
  · intro n hp hpos
    have hn : ¬ n ≤ 0 := not_le.mpr hpos
    refine ⟨?_, ?_, ?_⟩
    · cases hg : repoGet n <;> simp [obterFeedbackPorId, hp, hn, hg]
    · by_cases hd : repoDelete n > 0 <;> simp [deletarUmFeedback, hp, hn, hd]
    · intro hbody
      have hlen : ¬ body.length = 0 := fun h => hbody (List.length_eq_zero.mp h)
      by_cases hu : repoUpdate n body > 0
      · simp [atualizarUmFeedback, hp, hn, hlen, hu]
      · cases hg : repoGet n <;>
          simp [atualizarUmFeedback, hp, hn, hlen, hu, hg]
  · cases hp : jsParseInt idStr with
    | none => simp [idValid]
    | some n => simp [idValid]

theorem c5_id_guard_all_handlers_witness :
    (obterFeedbackPorId (fun _ => none) "abc").response.status = 400 ∧
    (obterFeedbackPorId (fun _ => none) "abc").repoCalls = [] ∧
    (deletarUmFeedback (fun _ => 0) "abc").response.status = 400 ∧
    (deletarUmFeedback (fun _ => 0) "abc").repoCalls = [] ∧
    (atualizarUmFeedback (fun _ _ => 0) (fun _ => none) "abc" []).response.status = 400 ∧
    (atualizarUmFeedback (fun _ _ => 0) (fun _ => none) "abc" []).repoCalls = [] :=
  (c5_id_guard_all_handlers (fun _ => none) (fun _ => 0) (fun _ _ => 0)
    [] "abc").1 (by decide)

/-- C7: the repository get-by-id returns `null` (the absent sentinel) when no
row of the table matches the id, never an error; and a returned record is a
row of the table with that id, one being returned whenever one exists. -/
theorem c7_get_by_id_sentinel (tbl : List FeedbackRecord) (id : Int) :
    ((∀ r ∈ tbl, r.id_feedback ≠ id) → buscarFeedbackPorId tbl id = none) ∧
    ((∃ r ∈ tbl, r.id_feedback = id) →
      ∃ r, buscarFeedbackPorId tbl id = some r ∧ r ∈ tbl ∧ r.id_feedback = id) ∧
    (∀ r, buscarFeedbackPorId tbl id = some r →
      r ∈ tbl ∧ r.id_feedback = id) := by
  refine ⟨?_, ?_, ?_⟩
  · intro h
    have hf : tbl.filter (fun r => r.id_feedback == id) = [] := by
      rw [List.filter_eq_nil_iff]
      intro r hr
      simp [h r hr]
    simp [buscarFeedbackPorId, hf]
  · rintro ⟨r, hr, hid⟩
    have hmem : r ∈ tbl.filter (fun r => r.id_feedback == id) := by
      rw [List.mem_filter]
      exact ⟨hr, by simp [hid]⟩
    cases hrows : tbl.filter (fun r => r.id_feedback == id) with
    | nil => rw [hrows] at hmem; exact absurd hmem (List.not_mem_nil r)
    | cons a as =>
      have ha : a ∈ tbl.filter (fun r => r.id_feedback == id) := by
        rw [hrows]; exact List.mem_cons_self a as
      refine ⟨a, ?_, (List.mem_filter.mp ha).1,
        eq_of_beq (List.mem_filter.mp ha).2⟩
      simp [buscarFeedbackPorId, hrows]
  · intro r h
    simp only [buscarFeedbackPorId] at h
    split at h
    · have := List.getElem?_mem h
      have hm := List.mem_filter.mp this
      exact ⟨hm.1, eq_of_beq hm.2⟩
    · exact Option.noConfusion h

theorem c7_get_by_id_sentinel_witness :
    buscarFeedbackPorId [⟨1, 0, []⟩] 2 = none :=
  (c7_get_by_id_sentinel [⟨1, 0, []⟩] 2).1 (by decide)

/-- C8: the repository list operation returns all rows of the table (a
permutation of it), ordered by submission timestamp descending, and the
empty table yields the empty sequence. -/
theorem c8_list_all_sorted_desc (tbl : List FeedbackRecord) :
    (listarFeedbacks tbl).Perm tbl ∧
    List.Pairwise
      (fun a b => b.submission_datetime ≤ a.submission_datetime)
      (listarFeedbacks tbl) ∧
    listarFeedbacks [] = [] := by
  refine ⟨List.mergeSort_perm tbl _, ?_, by simp [listarFeedbacks]⟩
  unfold listarFeedbacks
  refine List.Pairwise.imp (fun h => of_decide_eq_true h)
    (List.sorted_mergeSort ?_ ?_ tbl)
  · intro a b c hab hbc
    exact decide_eq_true
      (le_trans (of_decide_eq_true hbc) (of_decide_eq_true hab))
  · intro a b
    rcases le_total b.submission_datetime a.submission_datetime with h | h <;>
      simp [h]
